import Mathlib

/-!
Verification of the XNAPoS proof-of-work hash-chaining engine.

The chain orchestrator (`Hash9`, two variants) lives in `src/src/hashblock.h`.
The sph primitive bodies (panama, whirlpool, keccak, ...) are not part of the
available sources, so the chain is embedded relative to an arbitrary family of
primitive functions; every structural statement is proved for all such families.
The HAVAL-256/5 primitive is embedded from `src/src/hash/haval.c` and the
`sph_haval.h` header (compression macros, init, output); its update/close
driver (`haval_helper.c`) is absent from the sources and is modelled from the
specification where noted.
-/

set_option maxRecDepth 4000

namespace XNAPoS

/-- Byte sequences are modelled as lists of naturals, one entry per byte. -/
abbrev Bytes := List Nat

/-- The cryptographic primitives named by the `z_*` globals and the `Hash9`
bodies in `src/src/hashblock.h` (both variants taken together). -/
inductive PrimId where
  | blake512
  | sha512
  | bmw512
  | cubehash384
  | whirlpool1
  | groestl512
  | jh512
  | keccak512
  | skein512
  | luffa512
  | tiger
  | tiger2
  | ripemd160
  | cubehash512
  | panama
  | shavite512
  | simd512
  | echo512
  | hamsi512
  | fugue512
  | shabal512
  | haval256_5
  | whirlpool
  deriving DecidableEq

/-- Modelled from the spec: digest size in bytes of each primitive.  The
primitive implementations are not under the available sources; the sizes
follow the primitive names enumerated in spec section 2 (a `-512` name means
64 bytes, CubeHash-384 means 48, HAVAL-256/5 and Panama produce 256 bits = 32
bytes, RIPEMD-160 produces 20, Tiger and Tiger2 produce 192 bits = 24). -/
def outLen : PrimId → Nat
  | .tiger => 24
  | .tiger2 => 24
  | .ripemd160 => 20
  | .haval256_5 => 32
  | .panama => 32
  | .cubehash384 => 48
  | _ => 64

/-- A family of primitive implementations: for each primitive, its full
message-to-digest function (init, absorb all bytes, close). -/
abbrev PrimImpl := PrimId → Bytes → Bytes

/-- The family produces digests of the sizes announced by the primitive
names. -/
def GoodImpl (impl : PrimImpl) : Prop := ∀ p m, (impl p m).length = outLen p

/-- `sph_X_close(&ctx, &hash[i])` writes the digest into a `uint512` buffer
whose 64 bytes were zeroed by the `base_uint` default constructor: the digest
occupies the low bytes and the remainder stays zero. -/
def store512 (d : Bytes) : Bytes := d ++ List.replicate (64 - d.length) 0

/-- Modelled from the spec: `uint512::trim256` (uint256.h is not among the
available sources) keeps the low-order 256 bits of the 512-bit value, i.e. the
first 32 bytes of the buffer in its canonical little-endian byte order
(spec sections 4.3 and 4.4). -/
def trim256 (b : Bytes) : Bytes := b.take 32

/-- The data range handed to step 1 of either `Hash9` variant:
`(pbegin == pend ? pblank : &pbegin[0])` with byte length `pend - pbegin`.
For an empty range the static buffer `pblank` is passed with length 0, so 0 of
its bytes are read. -/
def step1Data (pblank msg : Bytes) : Bytes :=
  if msg.isEmpty then pblank.take 0 else msg

/-- Shallow embedding of the 5-step `Hash9` (`src/src/hashblock.h` lines
38-75): panama over the message, then whirlpool, keccak-512, panama and
cubehash-512 over the previous 64-byte buffer, finally `trim256`. -/
def Hash9v5core (impl : PrimImpl) (pblank msg : Bytes) : Bytes :=
  let hash0 := store512 (impl .panama (step1Data pblank msg))
  let hash1 := store512 (impl .whirlpool hash0)
  let hash2 := store512 (impl .keccak512 hash1)
  let hash3 := store512 (impl .panama hash2)
  let hash4 := store512 (impl .cubehash512 hash3)
  trim256 hash4

/-- Shallow embedding of the 24-step `Hash9` (`src/src/hashblock.h` lines
196-330), one `let` per `init/update/close` triple in source order. -/
def Hash9v24core (impl : PrimImpl) (pblank msg : Bytes) : Bytes :=
  let hash0 := store512 (impl .whirlpool1 (step1Data pblank msg))
  let hash1 := store512 (impl .bmw512 hash0)
  let hash2 := store512 (impl .groestl512 hash1)
  let hash3 := store512 (impl .echo512 hash2)
  let hash4 := store512 (impl .hamsi512 hash3)
  let hash5 := store512 (impl .fugue512 hash4)
  let hash6 := store512 (impl .shabal512 hash5)
  let hash7 := store512 (impl .jh512 hash6)
  let hash8 := store512 (impl .keccak512 hash7)
  let hash9 := store512 (impl .skein512 hash8)
  let hash10 := store512 (impl .luffa512 hash9)
  let hash11 := store512 (impl .tiger hash10)
  let hash12 := store512 (impl .cubehash512 hash11)
  let hash13 := store512 (impl .panama hash12)
  let hash14 := store512 (impl .sha512 hash13)
  let hash15 := store512 (impl .shavite512 hash14)
  let hash16 := store512 (impl .simd512 hash15)
  let hash17 := store512 (impl .blake512 hash16)
  let hash18 := store512 (impl .ripemd160 hash17)
  let hash19 := store512 (impl .haval256_5 hash18)
  let hash20 := store512 (impl .cubehash384 hash19)
  let hash21 := store512 (impl .whirlpool1 hash20)
  let hash22 := store512 (impl .tiger2 hash21)
  let hash23 := store512 (impl .whirlpool hash22)
  trim256 hash23

/-- The step sequence of the 5-step variant, in source order. -/
def steps5 : List PrimId := [.panama, .whirlpool, .keccak512, .panama, .cubehash512]

/-- The step sequence of the 24-step variant, in source order. -/
def steps24 : List PrimId :=
  [.whirlpool1, .bmw512, .groestl512, .echo512, .hamsi512, .fugue512, .shabal512,
   .jh512, .keccak512, .skein512, .luffa512, .tiger, .cubehash512, .panama,
   .sha512, .shavite512, .simd512, .blake512, .ripemd160, .haval256_5,
   .cubehash384, .whirlpool1, .tiger2, .whirlpool]

/-- The generalized chain of spec section 4.3: step 1 hashes the message, every
later step hashes the full previous 64-byte buffer, and the final buffer is
truncated to 256 bits. -/
def chainRun (impl : PrimImpl) (steps : List PrimId) (msg : Bytes) : Bytes :=
  match steps with
  | [] => []
  | p :: rest =>
      trim256 (rest.foldl (fun buf q => store512 (impl q buf)) (store512 (impl p msg)))

/-- The `uint512` buffer written by step `i` (0-based) of the 5-step chain. -/
def buf5 (impl : PrimImpl) (pblank msg : Bytes) : Nat → Bytes
  | 0 => store512 (impl (steps5.getD 0 .panama) (step1Data pblank msg))
  | i + 1 => store512 (impl (steps5.getD (i + 1) .panama) (buf5 impl pblank msg i))

/-- The `uint512` buffer written by step `i` (0-based) of the 24-step chain. -/
def buf24 (impl : PrimImpl) (pblank msg : Bytes) : Nat → Bytes
  | 0 => store512 (impl (steps24.getD 0 .panama) (step1Data pblank msg))
  | i + 1 => store512 (impl (steps24.getD (i + 1) .panama) (buf24 impl pblank msg i))

/-- The bytes absorbed by the `update` call of step `i` (0-based) of the
24-step chain: the message range for step 0, the previous buffer afterwards. -/
def absorbed24 (impl : PrimImpl) (pblank msg : Bytes) : Nat → Bytes
  | 0 => step1Data pblank msg
  | i + 1 => buf24 impl pblank msg i

/-- The digest produced by the `close` call of step `i` of the 24-step chain. -/
def digest24 (impl : PrimImpl) (pblank msg : Bytes) (i : Nat) : Bytes :=
  impl (steps24.getD i .panama) (absorbed24 impl pblank msg i)

/-- The bytes absorbed by the `update` call of step `i` (0-based) of the
5-step chain: the message range for step 0, the previous buffer afterwards. -/
def absorbed5 (impl : PrimImpl) (pblank msg : Bytes) : Nat → Bytes
  | 0 => step1Data pblank msg
  | i + 1 => buf5 impl pblank msg i

/-- The digest produced by the `close` call of step `i` of the 5-step chain. -/
def digest5 (impl : PrimImpl) (pblank msg : Bytes) (i : Nat) : Bytes :=
  impl (steps5.getD i .panama) (absorbed5 impl pblank msg i)

/-- The state of the process-wide zero-state globals `z_*`, one context per
primitive; `σ` abstracts the context struct contents. -/
abbrev Globals (σ : Type) := PrimId → σ

/-- The declared globals whose contexts the 24-variant `fillz` macro
(`src/src/hashblock.h` lines 142-167) initializes, in the claim-relevant
sense.  Note, from the source text: the macro calls `sph_tiger2_init(&tiger2)`
on the undeclared name `tiger2` — not on the global `z_tiger2` — and
`sph_groestl384_init(&z_lowgroestl)` on the undeclared name `z_lowgroestl`;
neither call targets any declared global, so `z_tiger2` is absent here. -/
def fillzTargets : List PrimId :=
  [.blake512, .sha512, .bmw512, .groestl512, .jh512, .keccak512, .skein512,
   .luffa512, .tiger, .ripemd160, .cubehash512, .panama, .shavite512, .simd512,
   .echo512, .hamsi512, .fugue512, .shabal512, .haval256_5, .whirlpool,
   .cubehash384, .whirlpool1]

/-- Effect of the 24-variant `fillz` macro on the globals: every targeted
global receives its primitive's post-init context; the rest keep their prior
contents. -/
def fillz {σ : Type} (init : Globals σ) (g : Globals σ) : Globals σ :=
  fun p => if p ∈ fillzTargets then init p else g p

/-- The ambient mutable state visible to `Hash9`: the `z_*` globals and the
static `pblank` buffer. -/
structure Env (σ : Type) where
  globals : Globals σ
  pblank : Bytes

/-- The 5-step `Hash9` as a state-threading computation.  Its body
(`src/src/hashblock.h` lines 41-74) declares only function-local contexts,
initializes each with a direct `sph_*_init` call, reads `pblank` only through
a zero-length range, and never names a `z_*` global; the globals therefore
pass through unchanged. -/
def Hash9v5Run {σ : Type} (impl : PrimImpl) (e : Env σ) (msg : Bytes) :
    Bytes × Env σ :=
  (Hash9v5core impl e.pblank msg, e)

/-- The 24-step `Hash9` as a state-threading computation; as with the 5-step
variant, its body (`src/src/hashblock.h` lines 199-330) touches no `z_*`
global. -/
def Hash9v24Run {σ : Type} (impl : PrimImpl) (e : Env σ) (msg : Bytes) :
    Bytes × Env σ :=
  (Hash9v24core impl e.pblank msg, e)

/-- A concrete primitive family (every digest all-zero, of the announced
size), used only to instantiate universally quantified statements at one
concrete point. -/
def constImpl : PrimImpl := fun p _ => List.replicate (outLen p) 0

theorem step1Data_eq (pblank msg : Bytes) : step1Data pblank msg = msg := by
  cases msg <;> simp [step1Data]

theorem outLen_le_64 (p : PrimId) : outLen p ≤ 64 := by
  cases p <;> simp [outLen]

theorem store512_length {d : Bytes} (h : d.length ≤ 64) :
    (store512 d).length = 64 := by
  simp [store512]
  omega

theorem store512_length_ge (d : Bytes) : 64 ≤ (store512 d).length := by
  simp [store512]
  omega

theorem trim256_length (b : Bytes) (h : 32 ≤ b.length) :
    (trim256 b).length = 32 := by
  simp [trim256]
  omega

theorem hash9v5_eq_chainRun (impl : PrimImpl) (pb msg : Bytes) :
    Hash9v5core impl pb msg = chainRun impl steps5 msg := by
  cases msg <;> rfl

theorem hash9v24_eq_chainRun (impl : PrimImpl) (pb msg : Bytes) :
    Hash9v24core impl pb msg = chainRun impl steps24 msg := by
  cases msg <;> rfl

theorem hash9v5_eq_buf (impl : PrimImpl) (pb msg : Bytes) :
    Hash9v5core impl pb msg = trim256 (buf5 impl pb msg 4) := rfl

theorem hash9v24_eq_buf (impl : PrimImpl) (pb msg : Bytes) :
    Hash9v24core impl pb msg = trim256 (buf24 impl pb msg 23) := rfl

theorem hash9v5_length (impl : PrimImpl) (pb msg : Bytes) :
    (Hash9v5core impl pb msg).length = 32 := by
  rw [hash9v5_eq_buf]
  exact trim256_length _ (le_trans (by norm_num) (store512_length_ge _))

theorem hash9v24_length (impl : PrimImpl) (pb msg : Bytes) :
    (Hash9v24core impl pb msg).length = 32 := by
  rw [hash9v24_eq_buf]
  exact trim256_length _ (le_trans (by norm_num) (store512_length_ge _))

/-- Claim C1: for every byte sequence and each chain variant, `Hash9` is a
pure function of the input bytes.  Two evaluations in arbitrary (and
arbitrarily different) ambient environments — any contents of the `z_*`
globals, any contents of the static `pblank` buffer — produce the same Final
Digest, and a repeated call in the environment left by a previous call
reproduces the previous result. -/
theorem C1_determinism {σ₁ σ₂ : Type} (impl : PrimImpl) (e₁ : Env σ₁)
    (e₂ : Env σ₂) (msg : Bytes) :
    (Hash9v5Run impl e₁ msg).1 = (Hash9v5Run impl e₂ msg).1 ∧
    (Hash9v24Run impl e₁ msg).1 = (Hash9v24Run impl e₂ msg).1 ∧
    (Hash9v5Run impl (Hash9v5Run impl e₁ msg).2 msg).1
      = (Hash9v5Run impl e₁ msg).1 ∧
    (Hash9v24Run impl (Hash9v24Run impl e₁ msg).2 msg).1
      = (Hash9v24Run impl e₁ msg).1 := by
  cases msg <;> exact ⟨rfl, rfl, rfl, rfl⟩

/-- Claim C2: the 5-step variant applies exactly panama, whirlpool,
keccak-512, panama, cubehash-512 in order (5 steps over 4 distinct
primitives), each step after the first over the previous 64-byte buffer; the
24-step variant applies exactly the 24 steps listed, with whirlpool-1 at
positions 1 and 22 followed by the distinct primitives bmw-512 and tiger2. -/
theorem C2_step_sequence (impl : PrimImpl) (pb msg : Bytes) :
    Hash9v5core impl pb msg = chainRun impl steps5 msg ∧
    Hash9v24core impl pb msg = chainRun impl steps24 msg ∧
    steps5 = [.panama, .whirlpool, .keccak512, .panama, .cubehash512] ∧
    steps5.length = 5 ∧ steps5.dedup.length = 4 ∧
    steps24 = [.whirlpool1, .bmw512, .groestl512, .echo512, .hamsi512,
      .fugue512, .shabal512, .jh512, .keccak512, .skein512, .luffa512, .tiger,
      .cubehash512, .panama, .sha512, .shavite512, .simd512, .blake512,
      .ripemd160, .haval256_5, .cubehash384, .whirlpool1, .tiger2, .whirlpool] ∧
    steps24.length = 24 ∧
    steps24.getD 0 .panama = .whirlpool1 ∧
    steps24.getD 21 .panama = .whirlpool1 ∧
    steps24.getD 1 .panama = .bmw512 ∧
    steps24.getD 22 .panama = .tiger2 ∧
    PrimId.bmw512 ≠ PrimId.tiger2 :=
  ⟨hash9v5_eq_chainRun impl pb msg, hash9v24_eq_chainRun impl pb msg,
   rfl, rfl, by decide, rfl, rfl, rfl, rfl, rfl, rfl, by decide⟩

/-- Claim C3: in both variants the Final Digest equals `trim256` of the last
step's 64-byte buffer, and `trim256` is exactly the first 32 bytes of that
buffer in its canonical byte order (the low-order 256 bits) — a fixed
sub-range, no further transform: the taken 32 bytes followed by the dropped
remainder reassemble the buffer. -/
theorem C3_trim256 (impl : PrimImpl) (pb msg b : Bytes) :
    Hash9v5core impl pb msg = trim256 (buf5 impl pb msg 4) ∧
    Hash9v24core impl pb msg = trim256 (buf24 impl pb msg 23) ∧
    trim256 b = b.take 32 ∧
    trim256 b ++ b.drop 32 = b ∧
    (Hash9v5core impl pb msg).length = 32 ∧
    (Hash9v24core impl pb msg).length = 32 :=
  ⟨hash9v5_eq_buf impl pb msg, hash9v24_eq_buf impl pb msg, rfl,
   List.take_append_drop 32 b, hash9v5_length impl pb msg,
   hash9v24_length impl pb msg⟩

/-- Claim C4 counterexample: at the Tiger step of the 24-step chain (step 12,
0-based index 11) the digest is 24 bytes, not 64, so it does not fill the
entire 512-bit Wide Digest Buffer, and the 64 bytes absorbed by the following
CubeHash-512 step are not the bytes Tiger produced as its digest.  Evaluated
at a concrete primitive family, empty message and a concrete `pblank`. -/
theorem C4_counterexample :
    outLen PrimId.tiger = 24 ∧
    steps24.getD 11 .panama = PrimId.tiger ∧
    (digest24 constImpl [0] [] 11).length = 24 ∧
    (absorbed24 constImpl [0] [] 12).length = 64 ∧
    absorbed24 constImpl [0] [] 12 ≠ digest24 constImpl [0] [] 11 := by
  refine ⟨rfl, rfl, by decide, by decide, by decide⟩

/-- Claim C4 as amended: for every step i > 1 of either chain variant, the
bytes absorbed by step i are exactly the previous step's full 64-byte Wide
Digest Buffer, which holds the previous digest in its low-order bytes
followed by the buffer's zero fill; the digest fills the whole buffer only
for primitives with 64-byte output, while Tiger (24), Tiger2 (24),
RIPEMD-160 (20), Panama (32), HAVAL-256/5 (32) and CubeHash-384 (48) leave
the remainder zero — in the 5-step chain this is the case at both Panama
steps. -/
theorem C4_amended (impl : PrimImpl) (h : GoodImpl impl) (pb msg : Bytes)
    (i j : Nat) (hi : i + 1 < 24) (hj : j + 1 < 5) :
    (absorbed24 impl pb msg (i + 1) = store512 (digest24 impl pb msg i) ∧
     (absorbed24 impl pb msg (i + 1)).length = 64 ∧
     absorbed24 impl pb msg (i + 1) =
       digest24 impl pb msg i
         ++ List.replicate (64 - outLen (steps24.getD i .panama)) 0) ∧
    (absorbed5 impl pb msg (j + 1) = store512 (digest5 impl pb msg j) ∧
     (absorbed5 impl pb msg (j + 1)).length = 64 ∧
     absorbed5 impl pb msg (j + 1) =
       digest5 impl pb msg j
         ++ List.replicate (64 - outLen (steps5.getD j .panama)) 0) := by
  have e24 : absorbed24 impl pb msg (i + 1) = store512 (digest24 impl pb msg i) := by
    cases i <;> rfl
  have h24 : (digest24 impl pb msg i).length = outLen (steps24.getD i .panama) := h _ _
  have e5 : absorbed5 impl pb msg (j + 1) = store512 (digest5 impl pb msg j) := by
    cases j <;> rfl
  have h5 : (digest5 impl pb msg j).length = outLen (steps5.getD j .panama) := h _ _
  refine ⟨⟨e24, ?_, ?_⟩, e5, ?_, ?_⟩
  · rw [e24]
    exact store512_length (by rw [h24]; exact outLen_le_64 _)
  · rw [e24, store512, h24]
  · rw [e5]
    exact store512_length (by rw [h5]; exact outLen_le_64 _)
  · rw [e5, store512, h5]

/-- Witness for C4_amended at a concrete family, steps i = 0 and j = 0; in
the 5-step chain step 0 is Panama with its 32-byte digest, exercising the
zero-filled case. -/
theorem C4_amended_witness :
    (absorbed24 constImpl [] [] 1 = store512 (digest24 constImpl [] [] 0) ∧
     (absorbed24 constImpl [] [] 1).length = 64 ∧
     absorbed24 constImpl [] [] 1 =
       digest24 constImpl [] [] 0
         ++ List.replicate (64 - outLen (steps24.getD 0 .panama)) 0) ∧
    (absorbed5 constImpl [] [] 1 = store512 (digest5 constImpl [] [] 0) ∧
     (absorbed5 constImpl [] [] 1).length = 64 ∧
     absorbed5 constImpl [] [] 1 =
       digest5 constImpl [] [] 0
         ++ List.replicate (64 - outLen (steps5.getD 0 .panama)) 0) :=
  C4_amended constImpl (fun p m => by simp [constImpl]) [] [] 0 0 (by norm_num)
    (by norm_num)

/-- Claim C5 is contradicted by the source: the 24-variant `fillz` macro
never initializes the declared global `z_tiger2` — its corresponding call is
`sph_tiger2_init(&tiger2)`, naming the undeclared identifier `tiger2` — so
after warm-up the `z_tiger2` snapshot keeps its prior contents and need not
equal a freshly initialized tiger2 context.  Concretely, with every post-init
context modelled as 0 and every pre-warm-up global as 1, `z_tiger2` still
holds 1 after `fillz` while `z_tiger` holds 0. -/
theorem C5_fillz_misses_tiger2 :
    (∀ (σ : Type) (init g : Globals σ),
      fillz init g PrimId.tiger2 = g PrimId.tiger2) ∧
    fillz (fun _ => (0 : Nat)) (fun _ => 1) PrimId.tiger2 = 1 ∧
    (fun _ : PrimId => (0 : Nat)) PrimId.tiger2 = 0 ∧
    fillz (fun _ => (0 : Nat)) (fun _ => 1) PrimId.tiger = 0 := by
  refine ⟨fun σ init g => ?_, by decide, rfl, by decide⟩
  simp [fillz, fillzTargets]

/-- Claim C6: on an empty input range both `Hash9` variants terminate with a
fixed 256-bit digest: step 1 absorbs exactly 0 bytes (none of `pblank`), the
first Wide Digest Buffer is the first primitive's digest of the empty
message with no special case (the result coincides with the generic chain on
the empty message), and the result is independent of the `pblank` contents. -/
theorem C6_empty_input (impl : PrimImpl) (pb pb' : Bytes) :
    step1Data pb [] = [] ∧
    buf5 impl pb [] 0 = store512 (impl .panama []) ∧
    buf24 impl pb [] 0 = store512 (impl .whirlpool1 []) ∧
    Hash9v5core impl pb [] = Hash9v5core impl pb' [] ∧
    Hash9v24core impl pb [] = Hash9v24core impl pb' [] ∧
    Hash9v5core impl pb [] = chainRun impl steps5 [] ∧
    Hash9v24core impl pb [] = chainRun impl steps24 [] ∧
    (Hash9v5core impl pb []).length = 32 ∧
    (Hash9v24core impl pb []).length = 32 :=
  ⟨rfl, rfl, rfl, rfl, rfl, hash9v5_eq_chainRun impl pb [],
   hash9v24_eq_chainRun impl pb [], hash9v5_length impl pb [],
   hash9v24_length impl pb []⟩

/-- Claim C10: neither `Hash9` variant reads or writes the process-wide
zero-state globals: the globals pass through every call unchanged, the Final
Digest is the same for any two contents of the globals — in particular with
or without a prior `fillz` — for both variants. -/
theorem C10_globals_untouched {σ : Type} (impl : PrimImpl) (e : Env σ)
    (g g' init : Globals σ) (pb msg : Bytes) :
    (Hash9v5Run impl e msg).2 = e ∧
    (Hash9v24Run impl e msg).2 = e ∧
    (Hash9v5Run impl ⟨g, pb⟩ msg).1 = (Hash9v5Run impl ⟨g', pb⟩ msg).1 ∧
    (Hash9v24Run impl ⟨g, pb⟩ msg).1 = (Hash9v24Run impl ⟨g', pb⟩ msg).1 ∧
    (Hash9v5Run impl ⟨fillz init g, pb⟩ msg).1
      = (Hash9v5Run impl ⟨g, pb⟩ msg).1 ∧
    (Hash9v24Run impl ⟨fillz init g, pb⟩ msg).1
      = (Hash9v24Run impl ⟨g, pb⟩ msg).1 :=
  ⟨rfl, rfl, rfl, rfl, rfl, rfl⟩

/-! ### HAVAL-256/5 (sph_haval.h and src/src/hash/haval.c) -/

/-- `SPH_T32`: truncation to 32 bits. -/
def T32 (x : Nat) : Nat := x % 2 ^ 32

/-- `SPH_ROTR32(x, n) = SPH_T32((x >> n) | (x << (32 - n)))`. -/
def rotr32 (x n : Nat) : Nat := T32 ((x >>> n) ||| (x <<< (32 - n)))

/-- C bitwise complement `~` on a 32-bit unsigned operand. -/
def NOT32 (x : Nat) : Nat := x ^^^ (2 ^ 32 - 1)

/-- Optimized `F1` macro (sph_haval.h). -/
def F1 (x6 x5 x4 x3 x2 x1 x0 : Nat) : Nat :=
  (x1 &&& (x0 ^^^ x4)) ^^^ (x2 &&& x5) ^^^ (x3 &&& x6) ^^^ x0

/-- Optimized `F2` macro (sph_haval.h). -/
def F2 (x6 x5 x4 x3 x2 x1 x0 : Nat) : Nat :=
  (x2 &&& ((x1 &&& NOT32 x3) ^^^ (x4 &&& x5) ^^^ x6 ^^^ x0))
    ^^^ (x4 &&& (x1 ^^^ x5)) ^^^ ((x3 &&& x5) ^^^ x0)

/-- Optimized `F3` macro (sph_haval.h). -/
def F3 (x6 x5 x4 x3 x2 x1 x0 : Nat) : Nat :=
  (x3 &&& ((x1 &&& x2) ^^^ x6 ^^^ x0)) ^^^ (x1 &&& x4) ^^^ (x2 &&& x5) ^^^ x0

/-- Optimized `F4` macro (sph_haval.h). -/
def F4 (x6 x5 x4 x3 x2 x1 x0 : Nat) : Nat :=
  (x3 &&& ((x1 &&& x2) ^^^ (x4 ||| x6) ^^^ x5))
    ^^^ (x4 &&& ((NOT32 x2 &&& x5) ^^^ x1 ^^^ x6 ^^^ x0))
    ^^^ (x2 &&& x6) ^^^ x0

/-- Optimized `F5` macro (sph_haval.h). -/
def F5 (x6 x5 x4 x3 x2 x1 x0 : Nat) : Nat :=
  (x0 &&& NOT32 ((x1 &&& x2 &&& x3) ^^^ x5))
    ^^^ (x1 &&& x4) ^^^ (x2 &&& x5) ^^^ (x3 &&& x6)

/-- `F1`, basic definition from the reference paper (sph_haval.h comment). -/
def F1ref (x6 x5 x4 x3 x2 x1 x0 : Nat) : Nat :=
  (x1 &&& x4) ^^^ (x2 &&& x5) ^^^ (x3 &&& x6) ^^^ (x0 &&& x1) ^^^ x0

/-- `F2`, basic definition from the reference paper (sph_haval.h comment). -/
def F2ref (x6 x5 x4 x3 x2 x1 x0 : Nat) : Nat :=
  (x1 &&& x2 &&& x3) ^^^ (x2 &&& x4 &&& x5) ^^^ (x1 &&& x2)
    ^^^ (x1 &&& x4) ^^^ (x2 &&& x6) ^^^ (x3 &&& x5)
    ^^^ (x4 &&& x5) ^^^ (x0 &&& x2) ^^^ x0

/-- `F3`, basic definition from the reference paper (sph_haval.h comment). -/
def F3ref (x6 x5 x4 x3 x2 x1 x0 : Nat) : Nat :=
  (x1 &&& x2 &&& x3) ^^^ (x1 &&& x4) ^^^ (x2 &&& x5)
    ^^^ (x3 &&& x6) ^^^ (x0 &&& x3) ^^^ x0

/-- `F4`, basic definition from the reference paper (sph_haval.h comment). -/
def F4ref (x6 x5 x4 x3 x2 x1 x0 : Nat) : Nat :=
  (x1 &&& x2 &&& x3) ^^^ (x2 &&& x4 &&& x5) ^^^ (x3 &&& x4 &&& x6)
    ^^^ (x1 &&& x4) ^^^ (x2 &&& x6) ^^^ (x3 &&& x4) ^^^ (x3 &&& x5)
    ^^^ (x3 &&& x6) ^^^ (x4 &&& x5) ^^^ (x4 &&& x6) ^^^ (x0 &&& x4) ^^^ x0

/-- `F5`, basic definition from the reference paper (sph_haval.h comment). -/
def F5ref (x6 x5 x4 x3 x2 x1 x0 : Nat) : Nat :=
  (x1 &&& x4) ^^^ (x2 &&& x5) ^^^ (x3 &&& x6)
    ^^^ (x0 &&& x1 &&& x2 &&& x3) ^^^ (x0 &&& x5) ^^^ x0

/-- `FP5_1`: `F1` with the pass-1 phi permutation for 5 passes. -/
def FP5_1 (x6 x5 x4 x3 x2 x1 x0 : Nat) : Nat := F1 x3 x4 x1 x0 x5 x2 x6

/-- `FP5_2`: `F2` with the pass-2 phi permutation for 5 passes. -/
def FP5_2 (x6 x5 x4 x3 x2 x1 x0 : Nat) : Nat := F2 x6 x2 x1 x0 x3 x4 x5

/-- `FP5_3`: `F3` with the pass-3 phi permutation for 5 passes. -/
def FP5_3 (x6 x5 x4 x3 x2 x1 x0 : Nat) : Nat := F3 x2 x6 x0 x4 x3 x1 x5

/-- `FP5_4`: `F4` with the pass-4 phi permutation for 5 passes. -/
def FP5_4 (x6 x5 x4 x3 x2 x1 x0 : Nat) : Nat := F4 x1 x5 x3 x2 x0 x4 x6

/-- `FP5_5`: `F5` with the pass-5 phi permutation for 5 passes. -/
def FP5_5 (x6 x5 x4 x3 x2 x1 x0 : Nat) : Nat := F5 x2 x5 x0 x6 x4 x3 x1

/-- Word-access order of pass 2 (`MP2`). -/
def MP2 : List Nat :=
  [5, 14, 26, 18, 11, 28, 7, 16, 0, 23, 20, 22, 1, 10, 4, 8,
   30, 3, 21, 9, 17, 24, 29, 6, 19, 12, 15, 13, 2, 25, 31, 27]

/-- Word-access order of pass 3 (`MP3`). -/
def MP3 : List Nat :=
  [19, 9, 4, 20, 28, 17, 8, 22, 29, 14, 25, 12, 24, 30, 16, 26,
   31, 15, 7, 3, 1, 0, 18, 27, 13, 6, 21, 10, 23, 11, 5, 2]

/-- Word-access order of pass 4 (`MP4`). -/
def MP4 : List Nat :=
  [24, 4, 0, 14, 2, 7, 28, 23, 26, 6, 30, 20, 18, 25, 19, 3,
   22, 11, 31, 21, 8, 27, 12, 9, 1, 29, 5, 15, 17, 10, 16, 13]

/-- Word-access order of pass 5 (`MP5`). -/
def MP5 : List Nat :=
  [27, 3, 21, 26, 17, 11, 20, 29, 19, 0, 12, 7, 13, 8, 31, 10,
   5, 9, 14, 30, 18, 6, 28, 24, 2, 23, 16, 22, 4, 1, 25, 15]

/-- Step constants of pass 1: all zero. -/
def RK1 : List Nat := List.replicate 32 0

/-- Step constants of pass 2 (`RK2`). -/
def RK2 : List Nat :=
  [0x452821E6, 0x38D01377, 0xBE5466CF, 0x34E90C6C,
   0xC0AC29B7, 0xC97C50DD, 0x3F84D5B5, 0xB5470917,
   0x9216D5D9, 0x8979FB1B, 0xD1310BA6, 0x98DFB5AC,
   0x2FFD72DB, 0xD01ADFB7, 0xB8E1AFED, 0x6A267E96,
   0xBA7C9045, 0xF12C7F99, 0x24A19947, 0xB3916CF7,
   0x0801F2E2, 0x858EFC16, 0x636920D8, 0x71574E69,
   0xA458FEA3, 0xF4933D7E, 0x0D95748F, 0x728EB658,
   0x718BCD58, 0x82154AEE, 0x7B54A41D, 0xC25A59B5]

/-- Step constants of pass 3 (`RK3`). -/
def RK3 : List Nat :=
  [0x9C30D539, 0x2AF26013, 0xC5D1B023, 0x286085F0,
   0xCA417918, 0xB8DB38EF, 0x8E79DCB0, 0x603A180E,
   0x6C9E0E8B, 0xB01E8A3E, 0xD71577C1, 0xBD314B27,
   0x78AF2FDA, 0x55605C60, 0xE65525F3, 0xAA55AB94,
   0x57489862, 0x63E81440, 0x55CA396A, 0x2AAB10B6,
   0xB4CC5C34, 0x1141E8CE, 0xA15486AF, 0x7C72E993,
   0xB3EE1411, 0x636FBC2A, 0x2BA9C55D, 0x741831F6,
   0xCE5C3E16, 0x9B87931E, 0xAFD6BA33, 0x6C24CF5C]

/-- Step constants of pass 4 (`RK4`). -/
def RK4 : List Nat :=
  [0x7A325381, 0x28958677, 0x3B8F4898, 0x6B4BB9AF,
   0xC4BFE81B, 0x66282193, 0x61D809CC, 0xFB21A991,
   0x487CAC60, 0x5DEC8032, 0xEF845D5D, 0xE98575B1,
   0xDC262302, 0xEB651B88, 0x23893E81, 0xD396ACC5,
   0x0F6D6FF3, 0x83F44239, 0x2E0B4482, 0xA4842004,
   0x69C8F04A, 0x9E1F9B5E, 0x21C66842, 0xF6E96C9A,
   0x670C9C61, 0xABD388F0, 0x6A51A0D2, 0xD8542F68,
   0x960FA728, 0xAB5133A3, 0x6EEF0B6C, 0x137A3BE4]

/-- Step constants of pass 5 (`RK5`). -/
def RK5 : List Nat :=
  [0xBA3BF050, 0x7EFB2A98, 0xA1F1651D, 0x39AF0176,
   0x66CA593E, 0x82430E88, 0x8CEE8619, 0x456F9FB4,
   0x7D84A5C3, 0x3B8B5EBE, 0xE06F75D8, 0x85C12073,
   0x401A449F, 0x56C16AA6, 0x4ED3AA62, 0x363F7706,
   0x1BFEDF72, 0x429B023D, 0x37D0D724, 0xD00A1248,
   0xDB0FEAD3, 0x49F1C09B, 0x075372C9, 0x80991B7B,
   0x25D479D8, 0xF6E8DEF7, 0xE3FE501A, 0xB6794C3B,
   0x976CE0BD, 0x04C006BA, 0xC1A94FB6, 0x409F60C4]

/-- One `STEP` of the HAVAL compression, on the rotating register list
`[x7, x6, x5, x4, x3, x2, x1, x0]`:
`x7 := SPH_T32(SPH_ROTR32(fp(x6..x0), 7) + SPH_ROTR32(x7, 11) + w + c)`,
the register roles shifting by one for the next step. -/
def hstep (fp : Nat → Nat → Nat → Nat → Nat → Nat → Nat → Nat)
    (st : List Nat) (wc : Nat × Nat) : List Nat :=
  match st with
  | [x7, x6, x5, x4, x3, x2, x1, x0] =>
      [x6, x5, x4, x3, x2, x1, x0,
       T32 (rotr32 (fp x6 x5 x4 x3 x2 x1 x0) 7 + rotr32 x7 11 + wc.1 + wc.2)]
  | other => other

/-- One `PASSy`: 32 `STEP`s with the pass's boolean function, word order and
constants, over the 32 input words `X`. -/
def hpass (fp : Nat → Nat → Nat → Nat → Nat → Nat → Nat → Nat)
    (ws cs : List Nat) (X : List Nat) (st : List Nat) : List Nat :=
  (List.zip (ws.map (fun i => X.getD i 0)) cs).foldl (hstep fp) st

/-- `CORE5(in)`: save the state, run the five passes, then add the saved
state word-wise modulo 2^32 (`SAVE_STATE` / `UPDATE_STATE`).  State and
result are the register list `[s7, s6, s5, s4, s3, s2, s1, s0]`. -/
def core5 (X : List Nat) (st : List Nat) : List Nat :=
  let st1 := hpass FP5_1 (List.range 32) RK1 X st
  let st2 := hpass FP5_2 MP2 RK2 X st1
  let st3 := hpass FP5_3 MP3 RK3 X st2
  let st4 := hpass FP5_4 MP4 RK4 X st3
  let st5 := hpass FP5_5 MP5 RK5 X st4
  List.zipWith (fun a b => T32 (a + b)) st5 st

/-- `sph_dec32le_aligned` on byte `off` of a byte list. -/
def dec32le (b : Bytes) (off : Nat) : Nat :=
  b.getD off 0 + 2 ^ 8 * b.getD (off + 1) 0
    + 2 ^ 16 * b.getD (off + 2) 0 + 2 ^ 24 * b.getD (off + 3) 0

/-- `IN_PREPARE`: the 32 little-endian 32-bit words of a 128-byte block. -/
def blockWords (blk : Bytes) : List Nat :=
  (List.range 32).map (fun i => dec32le blk (4 * i))

/-- `sph_enc32le`: a 32-bit word as 4 little-endian bytes. -/
def enc32le (x : Nat) : Bytes :=
  [x % 2 ^ 8, x / 2 ^ 8 % 2 ^ 8, x / 2 ^ 16 % 2 ^ 8, x / 2 ^ 24 % 2 ^ 8]

/-- A 64-bit value as 8 little-endian bytes. -/
def enc64le (x : Nat) : Bytes :=
  (List.range 8).map (fun i => x / 2 ^ (8 * i) % 2 ^ 8)

/-- The HAVAL context (`sph_haval_context`): pending input bytes not yet
forming a complete 128-byte block, the eight 32-bit state words, the output
length in words, the pass count and the byte counter. -/
structure HavalCtx where
  buf : Bytes
  s0 : Nat
  s1 : Nat
  s2 : Nat
  s3 : Nat
  s4 : Nat
  s5 : Nat
  s6 : Nat
  s7 : Nat
  olen : Nat
  passes : Nat
  count : Nat
  deriving DecidableEq

/-- `haval_init` (haval.c lines 53-72): the eight fixed starting constants,
the requested output length and pass count, a zero length counter and an
empty pending buffer. -/
def havalInit (olen passes : Nat) : HavalCtx :=
  { buf := [], s0 := 0x243F6A88, s1 := 0x85A308D3, s2 := 0x13198A2E,
    s3 := 0x03707344, s4 := 0xA4093822, s5 := 0x299F31D0, s6 := 0x082EFA98,
    s7 := 0xEC4E6C89, olen := olen, passes := passes, count := 0 }

/-- Run `CORE5` on one 128-byte block (`RSTATE`; core; `WSTATE`). -/
def haval5ProcessBlock (c : HavalCtx) (blk : Bytes) : HavalCtx :=
  let r := core5 (blockWords blk) [c.s7, c.s6, c.s5, c.s4, c.s3, c.s2, c.s1, c.s0]
  { c with s7 := r.getD 0 0, s6 := r.getD 1 0, s5 := r.getD 2 0, s4 := r.getD 3 0,
           s3 := r.getD 4 0, s2 := r.getD 5 0, s1 := r.getD 6 0, s0 := r.getD 7 0 }

/-- Split a byte list into its complete 128-byte blocks and the remainder
(shorter than 128 bytes). -/
def splitBlocks (l : Bytes) : List Bytes × Bytes :=
  if _h : l.length < 128 then ([], l)
  else
    let r := splitBlocks (l.drop 128)
    (l.take 128 :: r.1, r.2)
termination_by l.length
decreasing_by
  rw [List.length_drop]
  omega

/-- Modelled from the spec: the `haval5` update driver (haval_helper.c is not
among the available sources).  `update` absorbs the data bytes: pending bytes
accumulate in the context buffer, each complete 128-byte block is compressed
with the five-pass core as it fills, and the length counter advances by the
number of absorbed bytes (spec section 4.1; sph_haval.h: a zero-length call
does nothing). -/
def havalUpdate5 (c : HavalCtx) (data : Bytes) : HavalCtx :=
  let parts := splitBlocks (c.buf ++ data)
  let c' := parts.1.foldl haval5ProcessBlock c
  { c' with buf := parts.2, count := c.count + data.length }

/-- Modelled from the spec: close's padding — a 1 bit then zero bits (byte
0x01 then zero bytes) up to 8 bytes short of a block boundary, then the
absorbed bit length in 8 little-endian bytes, reaching a block boundary
(spec section 4.1). -/
def havalPad (bufLen count : Nat) : Bytes :=
  1 :: List.replicate ((128 - (bufLen + 9) % 128) % 128) 0 ++ enc64le (8 * count)

/-- `haval_out` (haval.c lines 225-275), `olen = 8` branch as selected for
HAVAL-256/5: the digest is `s0..s7` encoded little-endian. -/
def havalOut256 (c : HavalCtx) : Bytes :=
  enc32le c.s0 ++ enc32le c.s1 ++ enc32le c.s2 ++ enc32le c.s3 ++
  enc32le c.s4 ++ enc32le c.s5 ++ enc32le c.s6 ++ enc32le c.s7

/-- Modelled from the spec and sph_haval.h (the close driver is not among the
available sources): `close` pads the pending input to a block boundary,
compresses the final block(s), writes the digest (`haval_out`), and
automatically reinitializes the context as if `init` had just been called. -/
def havalClose5 (c : HavalCtx) : Bytes × HavalCtx :=
  let cFinal := (splitBlocks (c.buf ++ havalPad c.buf.length c.count)).1.foldl
    haval5ProcessBlock c
  (havalOut256 cFinal, havalInit c.olen c.passes)

/-- `sph_haval256_5_init` via the `API(256, 5)` macro (haval.c):
`haval_init(cc, 256 >> 5, 5)`. -/
def sph_haval256_5_init : HavalCtx := havalInit (256 >>> 5) 5

/-- `sph_haval256_5` (update) via the `API(256, 5)` macro. -/
def sph_haval256_5 (cc : HavalCtx) (data : Bytes) : HavalCtx :=
  havalUpdate5 cc data

/-- `sph_haval256_5_close` via the `API(256, 5)` macro. -/
def sph_haval256_5_close (cc : HavalCtx) : Bytes × HavalCtx :=
  havalClose5 cc

theorem foldl_haval5_olen (bs : List Bytes) (c : HavalCtx) :
    (bs.foldl haval5ProcessBlock c).olen = c.olen := by
  induction bs generalizing c with
  | nil => rfl
  | cons b bs ih => rw [List.foldl_cons, ih]; rfl

theorem foldl_haval5_passes (bs : List Bytes) (c : HavalCtx) :
    (bs.foldl haval5ProcessBlock c).passes = c.passes := by
  induction bs generalizing c with
  | nil => rfl
  | cons b bs ih => rw [List.foldl_cons, ih]; rfl

theorem sph_haval256_5_olen (c : HavalCtx) (d : Bytes) :
    (sph_haval256_5 c d).olen = c.olen :=
  foldl_haval5_olen (splitBlocks (c.buf ++ d)).1 c

theorem sph_haval256_5_passes (c : HavalCtx) (d : Bytes) :
    (sph_haval256_5 c d).passes = c.passes :=
  foldl_haval5_passes (splitBlocks (c.buf ++ d)).1 c

theorem splitBlocks_small {l : Bytes} (h : l.length < 128) :
    splitBlocks l = ([], l) := by
  rw [splitBlocks]
  simp [h]

/-- Claim C7: `close` leaves the context in the state a fresh `init` would
produce, for every context and hence every absorbed-input history; in
particular, reusing the context left by a full init/update/close cycle for a
second cycle — without an intervening `init` — yields the same digest as the
identical cycle on a freshly initialized context. -/
theorem C7_context_reuse (c : HavalCtx) (m1 m2 : Bytes) :
    (sph_haval256_5_close c).2 = havalInit c.olen c.passes ∧
    (sph_haval256_5_close (sph_haval256_5
        (sph_haval256_5_close (sph_haval256_5 sph_haval256_5_init m1)).2 m2)).1
      = (sph_haval256_5_close (sph_haval256_5 sph_haval256_5_init m2)).1 := by
  refine ⟨rfl, ?_⟩
  have h1 : (sph_haval256_5_close (sph_haval256_5 sph_haval256_5_init m1)).2
      = sph_haval256_5_init := by
    show havalInit (sph_haval256_5 sph_haval256_5_init m1).olen
        (sph_haval256_5 sph_haval256_5_init m1).passes = sph_haval256_5_init
    rw [sph_haval256_5_olen, sph_haval256_5_passes]
    rfl
  rw [h1]

/-- Claim C8: a zero-length `update` is a no-op — for every context
satisfying the pending-buffer invariant (fewer than 128 buffered bytes), the
context is returned entirely unchanged (state words, length counter and
pending buffer included) and no block is compressed. -/
theorem C8_update_nil_noop (c : HavalCtx) (h : c.buf.length < 128) :
    sph_haval256_5 c [] = c ∧ (splitBlocks (c.buf ++ [])).1 = [] := by
  have e : splitBlocks (c.buf ++ []) = ([], c.buf) := by
    rw [List.append_nil]
    exact splitBlocks_small h
  have e' : splitBlocks c.buf = ([], c.buf) := splitBlocks_small h
  constructor
  · show havalUpdate5 c [] = c
    simp [havalUpdate5, e, e']
  · rw [e]

/-- Witness for C8 at a freshly initialized context. -/
theorem C8_update_nil_noop_witness :
    sph_haval256_5 sph_haval256_5_init [] = sph_haval256_5_init ∧
    (splitBlocks (sph_haval256_5_init.buf ++ [])).1 = [] :=
  C8_update_nil_noop sph_haval256_5_init (by decide)

theorem testBit_NOT32 {x : Nat} (i : Nat) (hi : i < 32) :
    (NOT32 x).testBit i = ! x.testBit i := by
  rw [NOT32, Nat.testBit_xor, Nat.testBit_two_pow_sub_one]
  simp [hi]

theorem testBit_NOT32_hi {x : Nat} (i : Nat) (hi : ¬ i < 32) :
    (NOT32 x).testBit i = x.testBit i := by
  rw [NOT32, Nat.testBit_xor, Nat.testBit_two_pow_sub_one]
  simp [hi]

theorem testBit_hi {x i : Nat} (hx : x < 2 ^ 32) (hi : ¬ i < 32) :
    x.testBit i = false :=
  Nat.testBit_lt_two_pow
    (lt_of_lt_of_le hx (Nat.pow_le_pow_right (by norm_num) (Nat.le_of_not_lt hi)))

theorem f1_eq_ref {x0 x1 x2 x3 x4 x5 x6 : Nat} (h0 : x0 < 2 ^ 32)
    (h1 : x1 < 2 ^ 32) (h2 : x2 < 2 ^ 32) (h3 : x3 < 2 ^ 32) (h4 : x4 < 2 ^ 32)
    (h5 : x5 < 2 ^ 32) (h6 : x6 < 2 ^ 32) :
    F1 x6 x5 x4 x3 x2 x1 x0 = F1ref x6 x5 x4 x3 x2 x1 x0 := by
  refine Nat.eq_of_testBit_eq fun i => ?_
  by_cases hi : i < 32
  · simp only [F1, F1ref, Nat.testBit_xor, Nat.testBit_and, Nat.testBit_or,
      testBit_NOT32 i hi]
    cases hb0 : x0.testBit i <;> cases hb1 : x1.testBit i <;>
      cases hb2 : x2.testBit i <;> cases hb3 : x3.testBit i <;>
      cases hb4 : x4.testBit i <;> cases hb5 : x5.testBit i <;>
      cases hb6 : x6.testBit i <;> rfl
  · simp only [F1, F1ref, Nat.testBit_xor, Nat.testBit_and, Nat.testBit_or,
      testBit_NOT32_hi i hi, testBit_hi h0 hi, testBit_hi h1 hi, testBit_hi h2 hi,
      testBit_hi h3 hi, testBit_hi h4 hi, testBit_hi h5 hi, testBit_hi h6 hi]
    rfl

theorem f2_eq_ref {x0 x1 x2 x3 x4 x5 x6 : Nat} (h0 : x0 < 2 ^ 32)
    (h1 : x1 < 2 ^ 32) (h2 : x2 < 2 ^ 32) (h3 : x3 < 2 ^ 32) (h4 : x4 < 2 ^ 32)
    (h5 : x5 < 2 ^ 32) (h6 : x6 < 2 ^ 32) :
    F2 x6 x5 x4 x3 x2 x1 x0 = F2ref x6 x5 x4 x3 x2 x1 x0 := by
  refine Nat.eq_of_testBit_eq fun i => ?_
  by_cases hi : i < 32
  · simp only [F2, F2ref, Nat.testBit_xor, Nat.testBit_and, Nat.testBit_or,
      testBit_NOT32 i hi]
    cases hb0 : x0.testBit i <;> cases hb1 : x1.testBit i <;>
      cases hb2 : x2.testBit i <;> cases hb3 : x3.testBit i <;>
      cases hb4 : x4.testBit i <;> cases hb5 : x5.testBit i <;>
      cases hb6 : x6.testBit i <;> rfl
  · simp only [F2, F2ref, Nat.testBit_xor, Nat.testBit_and, Nat.testBit_or,
      testBit_NOT32_hi i hi, testBit_hi h0 hi, testBit_hi h1 hi, testBit_hi h2 hi,
      testBit_hi h3 hi, testBit_hi h4 hi, testBit_hi h5 hi, testBit_hi h6 hi]
    rfl

theorem f3_eq_ref {x0 x1 x2 x3 x4 x5 x6 : Nat} (h0 : x0 < 2 ^ 32)
    (h1 : x1 < 2 ^ 32) (h2 : x2 < 2 ^ 32) (h3 : x3 < 2 ^ 32) (h4 : x4 < 2 ^ 32)
    (h5 : x5 < 2 ^ 32) (h6 : x6 < 2 ^ 32) :
    F3 x6 x5 x4 x3 x2 x1 x0 = F3ref x6 x5 x4 x3 x2 x1 x0 := by
  refine Nat.eq_of_testBit_eq fun i => ?_
  by_cases hi : i < 32
  · simp only [F3, F3ref, Nat.testBit_xor, Nat.testBit_and, Nat.testBit_or,
      testBit_NOT32 i hi]
    cases hb0 : x0.testBit i <;> cases hb1 : x1.testBit i <;>
      cases hb2 : x2.testBit i <;> cases hb3 : x3.testBit i <;>
      cases hb4 : x4.testBit i <;> cases hb5 : x5.testBit i <;>
      cases hb6 : x6.testBit i <;> rfl
  · simp only [F3, F3ref, Nat.testBit_xor, Nat.testBit_and, Nat.testBit_or,
      testBit_NOT32_hi i hi, testBit_hi h0 hi, testBit_hi h1 hi, testBit_hi h2 hi,
      testBit_hi h3 hi, testBit_hi h4 hi, testBit_hi h5 hi, testBit_hi h6 hi]
    rfl

theorem f4_eq_ref {x0 x1 x2 x3 x4 x5 x6 : Nat} (h0 : x0 < 2 ^ 32)
    (h1 : x1 < 2 ^ 32) (h2 : x2 < 2 ^ 32) (h3 : x3 < 2 ^ 32) (h4 : x4 < 2 ^ 32)
    (h5 : x5 < 2 ^ 32) (h6 : x6 < 2 ^ 32) :
    F4 x6 x5 x4 x3 x2 x1 x0 = F4ref x6 x5 x4 x3 x2 x1 x0 := by
  refine Nat.eq_of_testBit_eq fun i => ?_
  by_cases hi : i < 32
  · simp only [F4, F4ref, Nat.testBit_xor, Nat.testBit_and, Nat.testBit_or,
      testBit_NOT32 i hi]
    cases hb0 : x0.testBit i <;> cases hb1 : x1.testBit i <;>
      cases hb2 : x2.testBit i <;> cases hb3 : x3.testBit i <;>
      cases hb4 : x4.testBit i <;> cases hb5 : x5.testBit i <;>
      cases hb6 : x6.testBit i <;> rfl
  · simp only [F4, F4ref, Nat.testBit_xor, Nat.testBit_and, Nat.testBit_or,
      testBit_NOT32_hi i hi, testBit_hi h0 hi, testBit_hi h1 hi, testBit_hi h2 hi,
      testBit_hi h3 hi, testBit_hi h4 hi, testBit_hi h5 hi, testBit_hi h6 hi]
    rfl

theorem f5_eq_ref {x0 x1 x2 x3 x4 x5 x6 : Nat} (h0 : x0 < 2 ^ 32)
    (h1 : x1 < 2 ^ 32) (h2 : x2 < 2 ^ 32) (h3 : x3 < 2 ^ 32) (h4 : x4 < 2 ^ 32)
    (h5 : x5 < 2 ^ 32) (h6 : x6 < 2 ^ 32) :
    F5 x6 x5 x4 x3 x2 x1 x0 = F5ref x6 x5 x4 x3 x2 x1 x0 := by
  refine Nat.eq_of_testBit_eq fun i => ?_
  by_cases hi : i < 32
  · simp only [F5, F5ref, Nat.testBit_xor, Nat.testBit_and, Nat.testBit_or,
      testBit_NOT32 i hi]
    cases hb0 : x0.testBit i <;> cases hb1 : x1.testBit i <;>
      cases hb2 : x2.testBit i <;> cases hb3 : x3.testBit i <;>
      cases hb4 : x4.testBit i <;> cases hb5 : x5.testBit i <;>
      cases hb6 : x6.testBit i <;> rfl
  · simp only [F5, F5ref, Nat.testBit_xor, Nat.testBit_and, Nat.testBit_or,
      testBit_NOT32_hi i hi, testBit_hi h0 hi, testBit_hi h1 hi, testBit_hi h2 hi,
      testBit_hi h3 hi, testBit_hi h4 hi, testBit_hi h5 hi, testBit_hi h6 hi]
    rfl

/-- Claim C9: for all 32-bit words, each optimized HAVAL boolean function
`F1`..`F5` equals the corresponding basic definition from the reference paper
reproduced in the adjacent comment of sph_haval.h. -/
theorem C9_boolean_functions (x0 x1 x2 x3 x4 x5 x6 : Nat) (h0 : x0 < 2 ^ 32)
    (h1 : x1 < 2 ^ 32) (h2 : x2 < 2 ^ 32) (h3 : x3 < 2 ^ 32) (h4 : x4 < 2 ^ 32)
    (h5 : x5 < 2 ^ 32) (h6 : x6 < 2 ^ 32) :
    F1 x6 x5 x4 x3 x2 x1 x0 = F1ref x6 x5 x4 x3 x2 x1 x0 ∧
    F2 x6 x5 x4 x3 x2 x1 x0 = F2ref x6 x5 x4 x3 x2 x1 x0 ∧
    F3 x6 x5 x4 x3 x2 x1 x0 = F3ref x6 x5 x4 x3 x2 x1 x0 ∧
    F4 x6 x5 x4 x3 x2 x1 x0 = F4ref x6 x5 x4 x3 x2 x1 x0 ∧
    F5 x6 x5 x4 x3 x2 x1 x0 = F5ref x6 x5 x4 x3 x2 x1 x0 :=
  ⟨f1_eq_ref h0 h1 h2 h3 h4 h5 h6, f2_eq_ref h0 h1 h2 h3 h4 h5 h6,
   f3_eq_ref h0 h1 h2 h3 h4 h5 h6, f4_eq_ref h0 h1 h2 h3 h4 h5 h6,
   f5_eq_ref h0 h1 h2 h3 h4 h5 h6⟩

/-- Witness for C9 at concrete 32-bit words. -/
theorem C9_boolean_functions_witness :
    F1 7 6 5 4 3 2 1 = F1ref 7 6 5 4 3 2 1 ∧
    F2 7 6 5 4 3 2 1 = F2ref 7 6 5 4 3 2 1 ∧
    F3 7 6 5 4 3 2 1 = F3ref 7 6 5 4 3 2 1 ∧
    F4 7 6 5 4 3 2 1 = F4ref 7 6 5 4 3 2 1 ∧
    F5 7 6 5 4 3 2 1 = F5ref 7 6 5 4 3 2 1 :=
  C9_boolean_functions 1 2 3 4 5 6 7 (by norm_num) (by norm_num) (by norm_num)
    (by norm_num) (by norm_num) (by norm_num) (by norm_num)

end XNAPoS
